import Mathlib

/-!
Verification of the sign-in form logic of `src/src/App.jsx`.

The component `App` owns five pieces of state (`email`, `password`,
`emailError`, `passwordError`, `isSubmitted`), two pure validators
(`validateEmail`, `validatePassword`), a derived flag `isFormValid`, and
three event handlers (`handleEmailChange`, `handlePasswordChange`,
`handleSubmit`).  We embed the state as a structure and each handler as a
pure function from state to state; JavaScript strings are modelled as Lean
`String` (a list of characters), and the anchored regular expression
`/^\S+@\S+\.\S+$/` is embedded as a backtracking matcher over the character
list, exactly following the structure of the pattern.
-/

namespace SignInForm

/-- The set of characters matched by JavaScript's `\s` class (so `\S` is
its complement): TAB, LF, VT, FF, CR, space, NBSP, and the Unicode
space separators, line/paragraph separators and BOM. -/
def isJsSpace (c : Char) : Bool :=
  c.toNat = 0x9 || c.toNat = 0xa || c.toNat = 0xb || c.toNat = 0xc ||
  c.toNat = 0xd || c.toNat = 0x20 || c.toNat = 0xa0 || c.toNat = 0x1680 ||
  (0x2000 ≤ c.toNat && c.toNat ≤ 0x200a) ||
  c.toNat = 0x2028 || c.toNat = 0x2029 || c.toNat = 0x202f ||
  c.toNat = 0x205f || c.toNat = 0x3000 || c.toNat = 0xfeff

/-- The character class `\S`: any character that is not JavaScript whitespace. -/
def isNonSpace (c : Char) : Bool := !(isJsSpace c)

/-- Backtracking matcher for `p+` followed by a continuation `k`: consumes
one or more characters satisfying `p` from the front of the list and
accepts when the continuation accepts some remainder.  This is exactly how
a backtracking regex engine runs a `+` quantifier. -/
def matchPlus (p : Char → Bool) (k : List Char → Bool) : List Char → Bool
  | [] => false
  | c :: rest => p c && (k rest || matchPlus p k rest)

/-- Matcher for a literal character followed by a continuation `k`. -/
def litThen (ch : Char) (k : List Char → Bool) : List Char → Bool
  | [] => false
  | c :: rest => c == ch && k rest

/-- `EMAIL_REGEX.test s` for `EMAIL_REGEX = /^\S+@\S+\.\S+$/` (line 5 of
`App.jsx`): the pattern is anchored at both ends, so the whole string must
be consumed, the final continuation being the `$` anchor (`List.isEmpty`). -/
def emailRegexTest (s : String) : Bool :=
  matchPlus isNonSpace
    (litThen '@'
      (matchPlus isNonSpace
        (litThen '.'
          (matchPlus isNonSpace List.isEmpty)))) s.data

/-- `MIN_PASSWORD_LENGTH` (line 6 of `App.jsx`). -/
def MIN_PASSWORD_LENGTH : Nat := 6

/-- `validateEmail` (lines 58-62 of `App.jsx`).  JavaScript's `!input` on a
string is true exactly for the empty string.  The template messages are
written out as the literal strings they evaluate to. -/
def validateEmail (input : String) : String :=
  if input = "" then "Email is required."
  else if !(emailRegexTest input) then
    "Please enter a valid email address (e.g., user@domain.com)."
  else ""

/-- `validatePassword` (lines 64-68 of `App.jsx`); the template literal
interpolating `MIN_PASSWORD_LENGTH = 6` evaluates to the string below. -/
def validatePassword (input : String) : String :=
  if input = "" then "Password is required."
  else if input.length < MIN_PASSWORD_LENGTH then
    "Password must be at least 6 characters long."
  else ""

/-- The component state: the five `useState` hooks of `App`
(lines 47-55 of `App.jsx`). -/
structure FormState where
  email : String
  password : String
  emailError : String
  passwordError : String
  isSubmitted : Bool
deriving DecidableEq, Repr

/-- The initial state at mount: every `useState` initialiser
(lines 47-55 of `App.jsx`). -/
def initialState : FormState :=
  { email := "", password := "", emailError := "", passwordError := "",
    isSubmitted := false }

/-- `handleEmailChange` (lines 71-76 of `App.jsx`), with the new field
value passed directly instead of being read from the DOM event. -/
def handleEmailChange (s : FormState) (newEmail : String) : FormState :=
  { s with
    email := newEmail
    emailError := validateEmail newEmail
    isSubmitted := false }

/-- `handlePasswordChange` (lines 78-83 of `App.jsx`). -/
def handlePasswordChange (s : FormState) (newPassword : String) : FormState :=
  { s with
    password := newPassword
    passwordError := validatePassword newPassword
    isSubmitted := false }

/-- The derived `isFormValid` value (lines 87-89 of `App.jsx`),
a function of the current state, never stored. -/
def isFormValid (s : FormState) : Bool :=
  validateEmail s.email == "" && validatePassword s.password == ""

/-- `handleSubmit` (lines 92-115 of `App.jsx`).  `e.preventDefault()` and
the two `console` calls have no effect on the component state; the JS
truthiness test `finalEmailError || finalPasswordError` is true exactly
when at least one message is non-empty. -/
def handleSubmit (s : FormState) : FormState :=
  let finalEmailError := validateEmail s.email
  let finalPasswordError := validatePassword s.password
  let s1 := { s with
    emailError := finalEmailError
    passwordError := finalPasswordError }
  if finalEmailError ≠ "" ∨ finalPasswordError ≠ "" then
    { s1 with isSubmitted := false }
  else
    { s1 with isSubmitted := true }

/-- The state of spec scenario 2: email "bad", password "secret1", no
errors shown, not submitted. -/
def scenario2State : FormState :=
  { email := "bad", password := "secret1", emailError := "",
    passwordError := "", isSubmitted := false }

/-- The state of spec scenario 4: email "user@domain.com", password
"abcdef", no errors shown, not submitted. -/
def scenario4State : FormState :=
  { email := "user@domain.com", password := "abcdef", emailError := "",
    passwordError := "", isSubmitted := false }

/-- The language of `/^\S+@\S+\.\S+$/` stated the way the specification
words it: one or more non-whitespace characters, a literal `@`, one or
more non-whitespace characters, a literal `.`, one or more non-whitespace
characters, spanning the whole string. -/
def emailSpecMatch (s : String) : Prop :=
  ∃ a b c : List Char,
    s.data = a ++ '@' :: (b ++ '.' :: c) ∧
    a ≠ [] ∧ b ≠ [] ∧ c ≠ [] ∧
    a.all isNonSpace = true ∧ b.all isNonSpace = true ∧ c.all isNonSpace = true

lemma matchPlus_iff (p : Char → Bool) (k : List Char → Bool) (cs : List Char) :
    matchPlus p k cs = true ↔
      ∃ pre post, cs = pre ++ post ∧ pre ≠ [] ∧ pre.all p = true ∧ k post = true := by
  induction cs with
  | nil =>
    simp only [matchPlus, Bool.false_eq_true, false_iff]
    rintro ⟨pre, post, h, hpre, -, -⟩
    exact hpre (List.append_eq_nil.mp h.symm).1
  | cons c rest ih =>
    simp only [matchPlus, Bool.and_eq_true, Bool.or_eq_true, ih]
    constructor
    · rintro ⟨hp, hk | ⟨pre, post, hrest, hpre, hall, hkp⟩⟩
      · exact ⟨[c], rest, rfl, by simp, by simp [hp], hk⟩
      · refine ⟨c :: pre, post, by simp [hrest], by simp, ?_, hkp⟩
        simp [List.all_cons, hp, hall]
    · rintro ⟨pre, post, heq, hpre, hall, hkp⟩
      cases pre with
      | nil => exact absurd rfl hpre
      | cons d pre' =>
        injection heq with hd hrest
        subst hd
        simp only [List.all_cons, Bool.and_eq_true] at hall
        refine ⟨hall.1, ?_⟩
        cases pre' with
        | nil =>
          left
          simpa [hrest] using hkp
        | cons e pre'' =>
          right
          exact ⟨e :: pre'', post, hrest, by simp, hall.2, hkp⟩

lemma litThen_iff (ch : Char) (k : List Char → Bool) (r : List Char) :
    litThen ch k r = true ↔ ∃ rest, r = ch :: rest ∧ k rest = true := by
  cases r with
  | nil => simp [litThen]
  | cons c rest =>
    simp only [litThen, Bool.and_eq_true, beq_iff_eq]
    constructor
    · rintro ⟨rfl, hk⟩
      exact ⟨rest, rfl, hk⟩
    · rintro ⟨rest', heq, hk⟩
      injection heq with h1 h2
      exact ⟨h1, h2 ▸ hk⟩

/-- The backtracking matcher accepts exactly the language the pattern
`^\S+@\S+\.\S+$` denotes. -/
lemma emailRegexTest_iff (s : String) :
    emailRegexTest s = true ↔ emailSpecMatch s := by
  unfold emailRegexTest emailSpecMatch
  constructor
  · intro h
    obtain ⟨a, p1, hs, ha, halla, h1⟩ := (matchPlus_iff _ _ _).mp h
    obtain ⟨p2, hp1, h2⟩ := (litThen_iff _ _ _).mp h1
    obtain ⟨b, p3, hp2, hb, hallb, h3⟩ := (matchPlus_iff _ _ _).mp h2
    obtain ⟨p4, hp3, h4⟩ := (litThen_iff _ _ _).mp h3
    obtain ⟨c, p5, hp4, hc, hallc, h5⟩ := (matchPlus_iff _ _ _).mp h4
    have hp5 : p5 = [] := by
      cases p5 with
      | nil => rfl
      | cons x xs => simp [List.isEmpty] at h5
    subst hp5 hp4 hp3 hp2 hp1
    refine ⟨a, b, c, ?_, ha, hb, hc, halla, hallb, hallc⟩
    simpa using hs
  · rintro ⟨a, b, c, hs, ha, hb, hc, halla, hallb, hallc⟩
    refine (matchPlus_iff _ _ _).mpr
      ⟨a, '@' :: (b ++ '.' :: c), by simpa using hs, ha, halla, ?_⟩
    refine (litThen_iff _ _ _).mpr ⟨b ++ '.' :: c, rfl, ?_⟩
    refine (matchPlus_iff _ _ _).mpr ⟨b, '.' :: c, rfl, hb, hallb, ?_⟩
    refine (litThen_iff _ _ _).mpr ⟨c, rfl, ?_⟩
    exact (matchPlus_iff _ _ _).mpr ⟨c, [], by simp, hc, hallc, rfl⟩

/-- C1: `validateEmail s` is the empty string iff `s` is non-empty and
fully matches `^\S+@\S+\.\S+$`; it is "Email is required." when `s` is
empty and the invalid-address message when `s` is non-empty but does not
match. -/
theorem validateEmail_correct (s : String) :
    (validateEmail s = "" ↔ (s ≠ "" ∧ emailSpecMatch s)) ∧
    (s = "" → validateEmail s = "Email is required.") ∧
    (s ≠ "" → ¬ emailSpecMatch s →
      validateEmail s = "Please enter a valid email address (e.g., user@domain.com).") := by
  refine ⟨⟨?_, ?_⟩, ?_, ?_⟩
  · intro hval
    by_cases h : s = ""
    · rw [validateEmail, if_pos h] at hval
      exact absurd hval (by decide)
    · by_cases hm : emailRegexTest s = true
      · exact ⟨h, (emailRegexTest_iff s).mp hm⟩
      · have hm' : emailRegexTest s = false := by
          cases hx : emailRegexTest s with
          | false => rfl
          | true => exact absurd hx hm
        rw [validateEmail, if_neg h] at hval
        simp only [hm', Bool.not_false, if_true] at hval
        exact absurd hval (by decide)
  · rintro ⟨hne, hmatch⟩
    have hm := (emailRegexTest_iff s).mpr hmatch
    rw [validateEmail, if_neg hne]
    simp [hm]
  · intro h0
    rw [validateEmail, if_pos h0]
  · intro hne hnm
    have hm' : emailRegexTest s = false := by
      cases hx : emailRegexTest s with
      | false => rfl
      | true => exact absurd ((emailRegexTest_iff s).mp hx) hnm
    rw [validateEmail, if_neg hne]
    simp [hm']

/-- C1 witness: the theorem applied at the concrete inputs "" and "bad",
discharging the hypotheses there. -/
theorem validateEmail_correct_witness :
    validateEmail "" = "Email is required." ∧
    validateEmail "bad" = "Please enter a valid email address (e.g., user@domain.com)." := by
  refine ⟨(validateEmail_correct "").2.1 rfl, (validateEmail_correct "bad").2.2 (by decide) ?_⟩
  intro hmatch
  have := (emailRegexTest_iff "bad").mpr hmatch
  exact absurd this (by decide)

/-- C2: `validatePassword s` is the empty string iff `s` has length at
least 6; it is "Password is required." when `s` is empty and the
too-short message when `s` is non-empty but shorter than 6 characters. -/
theorem validatePassword_correct (s : String) :
    (validatePassword s = "" ↔ 6 ≤ s.length) ∧
    (s = "" → validatePassword s = "Password is required.") ∧
    (s ≠ "" → s.length < 6 →
      validatePassword s = "Password must be at least 6 characters long.") := by
  refine ⟨⟨?_, ?_⟩, ?_, ?_⟩
  · intro hval
    by_cases h : s = ""
    · rw [validatePassword, if_pos h] at hval
      exact absurd hval (by decide)
    · by_cases h6 : s.length < MIN_PASSWORD_LENGTH
      · rw [validatePassword, if_neg h, if_pos h6] at hval
        exact absurd hval (by decide)
      · unfold MIN_PASSWORD_LENGTH at h6
        omega
  · intro hlen
    have hne : s ≠ "" := by
      intro h0
      rw [h0] at hlen
      simp at hlen
    have h6 : ¬ s.length < MIN_PASSWORD_LENGTH := by
      unfold MIN_PASSWORD_LENGTH
      omega
    rw [validatePassword, if_neg hne, if_neg h6]
  · intro h0
    rw [validatePassword, if_pos h0]
  · intro hne hlt
    have h6 : s.length < MIN_PASSWORD_LENGTH := by
      unfold MIN_PASSWORD_LENGTH
      omega
    rw [validatePassword, if_neg hne, if_pos h6]

/-- C2 witness: the theorem applied at the concrete inputs "" and "abc",
discharging the hypotheses there. -/
theorem validatePassword_correct_witness :
    validatePassword "" = "Password is required." ∧
    validatePassword "abc" = "Password must be at least 6 characters long." :=
  ⟨(validatePassword_correct "").2.1 rfl,
   (validatePassword_correct "abc").2.2 (by decide) (by decide)⟩

/-- C3: from any state in which both validators accept the current field
values, `handleSubmit` sets `isSubmitted` to true and stores empty error
messages.  The handler is a total Lean function, so no exception can be
thrown. -/
theorem handleSubmit_valid (s : FormState)
    (he : validateEmail s.email = "") (hp : validatePassword s.password = "") :
    (handleSubmit s).isSubmitted = true ∧
    (handleSubmit s).emailError = "" ∧
    (handleSubmit s).passwordError = "" := by
  unfold handleSubmit
  simp [he, hp]

/-- C3 witness: the theorem applied at the state of spec scenario 4
(email "user@domain.com", password "abcdef"). -/
theorem handleSubmit_valid_witness :
    (handleSubmit scenario4State).isSubmitted = true ∧
    (handleSubmit scenario4State).emailError = "" ∧
    (handleSubmit scenario4State).passwordError = "" :=
  handleSubmit_valid scenario4State (by decide) (by decide)

/-- C4: from any state in which at least one validator rejects its current
field value, `handleSubmit` leaves `isSubmitted` false and stores exactly
the recomputed validator messages; the handler is total, so no exception
is thrown. -/
theorem handleSubmit_invalid (s : FormState)
    (h : validateEmail s.email ≠ "" ∨ validatePassword s.password ≠ "") :
    (handleSubmit s).isSubmitted = false ∧
    (handleSubmit s).emailError = validateEmail s.email ∧
    (handleSubmit s).passwordError = validatePassword s.password := by
  unfold handleSubmit
  simp only [if_pos h]
  exact ⟨trivial, trivial, trivial⟩

/-- C4 witness: the theorem applied at the state of spec scenario 2
(email "bad", password "secret1"), with the resulting messages evaluated. -/
theorem handleSubmit_invalid_witness :
    (handleSubmit scenario2State).isSubmitted = false ∧
    (handleSubmit scenario2State).emailError =
      "Please enter a valid email address (e.g., user@domain.com)." ∧
    (handleSubmit scenario2State).passwordError = "" := by
  have h := handleSubmit_invalid scenario2State (Or.inl (by decide))
  exact ⟨h.1, h.2.1.trans (by decide), h.2.2.trans (by decide)⟩

/-- C5: after any `handleSubmit` call, successful or not, the stored
errors equal the validators applied to the current field values,
overwriting whatever error state was there before. -/
theorem handleSubmit_recomputes_errors (s : FormState) :
    (handleSubmit s).emailError = validateEmail s.email ∧
    (handleSubmit s).passwordError = validatePassword s.password := by
  unfold handleSubmit
  by_cases h : validateEmail s.email ≠ "" ∨ validatePassword s.password ≠ ""
  · simp [if_pos h]
  · simp [if_neg h]

/-- C6: a change handler stores the new value, the recomputed error for
that value, and resets `isSubmitted` to false — for every starting state
and every new value, including a value equal to the current one. -/
theorem handleChange_spec (s : FormState) (v : String) :
    (handleEmailChange s v).email = v ∧
    (handleEmailChange s v).emailError = validateEmail v ∧
    (handleEmailChange s v).isSubmitted = false ∧
    (handlePasswordChange s v).password = v ∧
    (handlePasswordChange s v).passwordError = validatePassword v ∧
    (handlePasswordChange s v).isSubmitted = false :=
  ⟨rfl, rfl, rfl, rfl, rfl, rfl⟩

/-- C7: the derived `isFormValid` flag is true exactly when both
validators accept the current field values; it is a function of the
state, not an independently stored field. -/
theorem isFormValid_iff (s : FormState) :
    isFormValid s = true ↔
      (validateEmail s.email = "" ∧ validatePassword s.password = "") := by
  unfold isFormValid
  simp [Bool.and_eq_true]

/-- C7 witness: the theorem applied at a concrete valid state. -/
theorem isFormValid_iff_witness : isFormValid scenario4State = true :=
  (isFormValid_iff scenario4State).mpr ⟨by decide, by decide⟩

/-- C8: every operation of the component is deterministic: run twice from
equal states with equal inputs, each validator and handler produces equal
outputs. -/
theorem handlers_deterministic (s t : FormState) (v w : String)
    (hs : s = t) (hv : v = w) :
    validateEmail v = validateEmail w ∧
    validatePassword v = validatePassword w ∧
    handleEmailChange s v = handleEmailChange t w ∧
    handlePasswordChange s v = handlePasswordChange t w ∧
    handleSubmit s = handleSubmit t := by
  subst hs
  subst hv
  exact ⟨rfl, rfl, rfl, rfl, rfl⟩

/-- C8 witness: the theorem applied at the initial state and a concrete
input. -/
theorem handlers_deterministic_witness :
    handleEmailChange initialState "a" = handleEmailChange initialState "a" :=
  (handlers_deterministic initialState initialState "a" "a" rfl rfl).2.2.1

/-- C9: at mount every text field and both errors are empty and
`isSubmitted` is false, so `isFormValid` is false while no error message
is shown, and the invariant `emailError = validateEmail email` does not
hold yet. -/
theorem initialState_spec :
    initialState.email = "" ∧ initialState.password = "" ∧
    initialState.emailError = "" ∧ initialState.passwordError = "" ∧
    initialState.isSubmitted = false ∧
    isFormValid initialState = false ∧
    initialState.emailError ≠ validateEmail initialState.email := by
  refine ⟨rfl, rfl, rfl, rfl, rfl, by decide, by decide⟩

/-- C10: frame conditions — `handleSubmit` never changes the field
values, `handleEmailChange` never touches the password side, and
`handlePasswordChange` never touches the email side. -/
theorem handlers_frame (s : FormState) (v : String) :
    (handleSubmit s).email = s.email ∧
    (handleSubmit s).password = s.password ∧
    (handleEmailChange s v).password = s.password ∧
    (handleEmailChange s v).passwordError = s.passwordError ∧
    (handlePasswordChange s v).email = s.email ∧
    (handlePasswordChange s v).emailError = s.emailError := by
  refine ⟨?_, ?_, rfl, rfl, rfl, rfl⟩ <;>
    · unfold handleSubmit
      by_cases h : validateEmail s.email ≠ "" ∨ validatePassword s.password ≠ ""
      · simp [if_pos h]
      · simp [if_neg h]

end SignInForm
